import Mathlib

/-!
Verification development for the AGE_Classification_Production client.

The repository is a browser client with two variants of the same screen:
* `Api` — `src/utils/api.js` (file validation, the analyze request with a
  client-side timeout, response-body validation);
* `V1` — the Material-UI `App` (first document in `src/unnamed/part_000`);
* `V2` — the plain-React `App` (second document in `src/unnamed/part_000`).

JSON response payloads are modelled by the inductive `Json`; JavaScript
truthiness, `typeof x === 'object'`, property access and `String(x)`
coercion are modelled explicitly.  The network is modelled by a
`FetchOutcome` carrying the time at which the single `fetch` call settles,
so that the race against the client-side timeout is a comparison of that
time with the configured deadline.
-/

/-- JSON values as parsed by `response.json()`.  Numbers are modelled as
rationals. -/
inductive Json where
  | null : Json
  | bool : Bool → Json
  | num : ℚ → Json
  | str : String → Json
  | arr : List Json → Json
  | obj : List (String × Json) → Json

/-- JavaScript truthiness of a JSON value (`if (x)`). -/
def jsTruthy : Json → Bool
  | .null => false
  | .bool b => b
  | .num q => q != 0
  | .str s => s != ""
  | .arr _ => true
  | .obj _ => true

/-- Whether `typeof x === 'object'` holds for a JSON value: true for
`null`, arrays and objects. -/
def jsTypeofObject : Json → Bool
  | .null => true
  | .arr _ => true
  | .obj _ => true
  | _ => false

/-- Property access `x.k` on a JSON value, yielding `none` for JavaScript
`undefined`.  On objects it is a first-match lookup; on every other value
(including arrays, whose elements are not named properties) the access
yields `undefined`.  Access on `null` throws in JavaScript; call sites
that can receive `null` model the throw themselves. -/
def Json.field : Json → String → Option Json
  | .obj kvs, k => kvs.lookup k
  | _, _ => none

/-- Optional chaining `x?.k` where `x` is itself the result of a property
access (`none` = `undefined`): `null`/`undefined` receivers yield
`undefined` instead of throwing. -/
def jsOptChain (v : Option Json) (k : String) : Option Json :=
  match v with
  | some j => j.field k
  | none => none

mutual
/-- JavaScript `String(x)` coercion of a JSON value (used for
`new Error(x).message`).  Number formatting approximates the float
rendering: integral rationals print their numerator. -/
def jsString : Json → String
  | .null => "null"
  | .bool b => if b then "true" else "false"
  | .num q => if q.den == 1 then toString q.num else toString q
  | .str s => s
  | .arr xs => jsStringList xs
  | .obj _ => "[object Object]"

/-- `Array.prototype.toString`: elements joined by commas, with `null`
elements rendered as the empty string. -/
def jsStringList : List Json → String
  | [] => ""
  | [Json.null] => ""
  | [x] => jsString x
  | Json.null :: xs => "," ++ jsStringList xs
  | x :: xs => jsString x ++ "," ++ jsStringList xs
end

/-- Strict string equality `x.status === 's'`: true exactly when the
`status` property is a string equal to `s`. -/
def statusEq (r : Json) (s : String) : Bool :=
  match r.field "status" with
  | some (.str t) => t == s
  | _ => false

/-- JavaScript `x.length > 0` under truthiness already established:
arrays and strings have a `length`; on other values `x.length` is
`undefined` and `undefined > 0` is false. -/
def jsLengthGtZero : Json → Bool
  | .arr xs => xs.length > 0
  | .str s => s.length > 0
  | _ => false

/-- Substring containment (`String.prototype.includes`). -/
def strContains (s sub : String) : Bool := (s.splitOn sub).length > 1

/-- `String.prototype.startsWith`, computed on the character lists so
that it evaluates on concrete inputs. -/
def jsStartsWith (s pre : String) : Bool := pre.data.isPrefixOf s.data

/-- A `File`/`Blob` as seen by the client: name, MIME type, byte size. -/
structure JFile where
  name : String
  type : String
  size : ℕ
deriving DecidableEq

/-- The configuration object imported from `src/config.js`.  That file is
not part of the sources; its shape is reconstructed from its uses in
`api.js` and the spec, and concrete values live in `specConfig`. -/
structure Config where
  API_BASE_URL : String
  ANALYZE : String
  HEALTH : String
  ALLOWED_TYPES : List String
  MAX_FILE_SIZE : ℕ
  LOADING_TIMEOUT : ℕ
  INVALID_FILE_TYPE : String
  FILE_TOO_LARGE : String
  BACKEND_ERROR : String
  NETWORK_ERROR : String

/-- Modelled from the spec: `src/config.js` is absent from the sources.
Values follow the spec — base origin as in the variant-2 literal, allowed
types the image formats listed in the upload hint ("Supports: JPG, PNG,
GIF"), a 10MB maximum, and a timeout in the tens-of-seconds range. -/
def specConfig : Config where
  API_BASE_URL := "https://age-api-zzc8.onrender.com"
  ANALYZE := "/process"
  HEALTH := "/health"
  ALLOWED_TYPES := ["image/jpeg", "image/png", "image/gif"]
  MAX_FILE_SIZE := 10 * 1024 * 1024
  LOADING_TIMEOUT := 30000
  INVALID_FILE_TYPE := "Invalid file type. Please upload a JPG, PNG, or GIF image."
  FILE_TOO_LARGE := "File too large. Please upload an image smaller than 10MB."
  BACKEND_ERROR := "Server error. Please try again later."
  NETWORK_ERROR := "Network error. Please check your connection."

/-- `formatFileSize` from `api.js`.  The source computes the unit index
with `Math.floor(Math.log(bytes)/Math.log(1024))` and prints
`parseFloat((bytes/1024^i).toFixed(2))`; the decimal rendering of that
float is approximated here over naturals (truncated hundredths, trailing
zeros stripped as `parseFloat` does). -/
def formatFileSize (bytes : ℕ) : String :=
  if bytes == 0 then "0 Bytes"
  else
    let i := Nat.log 1024 bytes
    let unit := (["Bytes", "KB", "MB", "GB"].getD i "undefined")
    let whole := bytes / 1024 ^ i
    let cent := bytes * 100 / 1024 ^ i % 100
    let frac :=
      if cent == 0 then ""
      else if cent % 10 == 0 then "." ++ toString (cent / 10)
      else "." ++ (if cent < 10 then "0" else "") ++ toString cent
    toString whole ++ frac ++ " " ++ unit

/-- URL resolution used at every image-path site: a path starting with
`http` is used verbatim, anything else is prefixed with the base origin. -/
def resolveUrl (base p : String) : String :=
  if jsStartsWith p "http" then p else base ++ p

/-- `validateFile` from `api.js`: missing file, then MIME type against
`config.UPLOAD.ALLOWED_TYPES`, then size against
`config.UPLOAD.MAX_FILE_SIZE`; returns `true` on success. -/
def Api.validateFile (cfg : Config) (file : Option JFile) : Except String Bool :=
  match file with
  | none => .error "No file selected"
  | some f =>
    if !(cfg.ALLOWED_TYPES.contains f.type) then .error cfg.INVALID_FILE_TYPE
    else if f.size > cfg.MAX_FILE_SIZE then .error cfg.FILE_TOO_LARGE
    else .ok true

/-- The settling of the single `fetch` call: either the response arrives
at `time` (milliseconds since the request started) or the transport fails
at `time`. -/
inductive FetchOutcome where
  | resolves (time : ℕ) (status : ℕ) (statusText : String) (body : Json)
  | fails (time : ℕ)

/-- The time at which a fetch outcome settles. -/
def FetchOutcome.time : FetchOutcome → ℕ
  | .resolves t _ _ _ => t
  | .fails t => t

/-- Response-body validation from `analyzeImage` (`api.js` lines 61-71):
a falsy or non-`object`-typed body throws `Invalid response format from
server`; a truthy `error` property throws with `String(error value)` as
the message. -/
def Api.validateBody (data : Json) : Except String Json :=
  if !jsTruthy data || !jsTypeofObject data then
    .error "Invalid response format from server"
  else
    match data.field "error" with
    | some e => if jsTruthy e then .error (jsString e) else .ok data
    | none => .ok data

/-- `analyzeImage` from `api.js`: validates the file, issues one POST and
races it against an `AbortController` timer of `config.UI.LOADING_TIMEOUT`
milliseconds.  If the timer fires first the fetch rejects with an
`AbortError`, mapped to the timeout message; a transport failure maps to
the network message; non-2xx statuses map to 404/5xx/other messages; a
2xx response goes through `Api.validateBody`. -/
def Api.analyzeImage (cfg : Config) (file : Option JFile) (net : FetchOutcome) :
    Except String Json :=
  match Api.validateFile cfg file with
  | .error e => .error e
  | .ok _ =>
    match net with
    | .fails t =>
      if t > cfg.LOADING_TIMEOUT then .error "Request timed out. Please try again."
      else .error cfg.NETWORK_ERROR
    | .resolves t status statusText body =>
      if t > cfg.LOADING_TIMEOUT then .error "Request timed out. Please try again."
      else if 200 ≤ status && status ≤ 299 then Api.validateBody body
      else if status == 404 then .error "API endpoint not found. Please check the configuration."
      else if status ≥ 500 then .error cfg.BACKEND_ERROR
      else .error ("HTTP " ++ toString status ++ ": " ++ statusText)

/-- Number of `fetch` invocations performed by one call to `analyzeImage`:
the source contains a single `fetch` (line 43) guarded only by
`validateFile`, and no retry construct. -/
def Api.analyzeImageFetchCount (cfg : Config) (file : Option JFile) : ℕ :=
  match Api.validateFile cfg file with
  | .error _ => 0
  | .ok _ => 1

/-- Preview source held in the MUI variant's `previewUrl` state: an object
URL created by `URL.createObjectURL` (identified by an allocation number)
or a webcam screenshot data-URI. -/
inductive V1.PreviewSrc where
  | objectUrl (h : ℕ) : V1.PreviewSrc
  | dataUri (s : String) : V1.PreviewSrc
deriving DecidableEq

/-- Snackbar state of the MUI variant (`isOpen` models the source's
`open` field, which is a reserved word here). -/
structure V1.Snackbar where
  isOpen : Bool
  message : String
  severity : String

/-- State of the MUI variant (`useState` hooks of the first `App`),
extended with ghost bookkeeping for object-URL handles: `nextHandle` is
the next allocation number, `created`/`revoked` record
`URL.createObjectURL` / `URL.revokeObjectURL` calls in order. -/
structure V1.State where
  selectedImage : Option JFile
  previewUrl : Option V1.PreviewSrc
  isProcessing : Bool
  backendMessage : String
  ageAnnotatedImageUrl : Option String
  autismAnnotatedImageUrl : Option String
  ageAnalysis : Json
  autismAnalysis : Json
  error : Option String
  snackbar : V1.Snackbar
  showWebcam : Bool
  nextHandle : ℕ
  created : List ℕ
  revoked : List ℕ

/-- Initial state of the MUI variant. -/
def V1.init : V1.State where
  selectedImage := none
  previewUrl := none
  isProcessing := false
  backendMessage := ""
  ageAnnotatedImageUrl := none
  autismAnnotatedImageUrl := none
  ageAnalysis := Json.obj []
  autismAnalysis := Json.obj []
  error := none
  snackbar := ⟨false, "", "info"⟩
  showWebcam := false
  nextHandle := 0
  created := []
  revoked := []

/-- `resetStateExceptImage` of the MUI variant: clears analyses, annotated
image URLs, backend message and error; leaves the image and preview. -/
def V1.resetStateExceptImage (s : V1.State) : V1.State :=
  {s with ageAnalysis := Json.obj []
          autismAnalysis := Json.obj []
          autismAnnotatedImageUrl := none
          ageAnnotatedImageUrl := none
          backendMessage := ""
          error := none}

/-- `handleImageSelect` of the MUI variant: if a file was chosen it is
stored unconditionally (no validation), a fresh object URL becomes the
preview (the previous preview is not revoked), other result state is
cleared and a success snackbar is shown. -/
def V1.handleImageSelect (file : Option JFile) (s : V1.State) : V1.State :=
  match file with
  | none => s
  | some f =>
    let h := s.nextHandle
    let s1 := {s with selectedImage := some f
                      previewUrl := some (V1.PreviewSrc.objectUrl h)
                      nextHandle := h + 1
                      created := s.created ++ [h]}
    let s2 := V1.resetStateExceptImage s1
    {s2 with snackbar :=
      ⟨true, "Image uploaded: " ++ f.name ++ " (" ++ formatFileSize f.size ++ ")", "success"⟩}

/-- `captureFromWebcam` of the MUI variant: the screenshot data-URI
becomes the preview (the previous preview is not revoked) and the blob
becomes the selected image as `webcam-capture.jpg`. -/
def V1.captureFromWebcam (shot : String) (bytes : ℕ) (s : V1.State) : V1.State :=
  let s1 := {s with selectedImage := some ⟨"webcam-capture.jpg", "image/jpeg", bytes⟩
                    previewUrl := some (V1.PreviewSrc.dataUri shot)}
  let s2 := V1.resetStateExceptImage s1
  {s2 with snackbar := ⟨true, "Image captured from webcam", "success"⟩}

/-- `handleReset` of the MUI variant: clears image, preview, analyses,
URLs, message and error, and revokes the preview object URL it captured
(a data-URI preview makes `URL.revokeObjectURL` a no-op). -/
def V1.handleReset (s : V1.State) : V1.State :=
  let s1 := {s with selectedImage := none
                    previewUrl := none
                    ageAnalysis := Json.obj []
                    autismAnalysis := Json.obj []
                    ageAnnotatedImageUrl := none
                    autismAnnotatedImageUrl := none
                    backendMessage := ""
                    error := none}
  match s.previewUrl with
  | some (.objectUrl h) => {s1 with revoked := s.revoked ++ [h]}
  | _ => s1

/-- Lines 107-113 of the MUI variant's `handleAnalyze`: when
`res.age_check_summary` and its `annotated_image_url` are truthy, resolve
and store the age image URL and the summary object.  The
`some "TypeError"` outcome models the throw of `startsWith` on a truthy
non-string URL (partial updates made before the throw are kept, as in
JavaScript). -/
def V1.ageSection (cfg : Config) (res : Json) (s1 : V1.State) :
    V1.State × Option String :=
  match res.field "age_check_summary" with
  | some a =>
    if jsTruthy a then
      match a.field "annotated_image_url" with
      | some u =>
        if jsTruthy u then
          match u with
          | .str us =>
            ({s1 with ageAnnotatedImageUrl := some (resolveUrl cfg.API_BASE_URL us)
                      ageAnalysis := a}, none)
          | _ => (s1, some "TypeError")
        else (s1, none)
      | none => (s1, none)
    else (s1, none)
  | none => (s1, none)

/-- Lines 116-136 of the MUI variant's `handleAnalyze`: when
`res.autism_prediction_data` and its `annotated_image_path` are truthy
(the JavaScript re-reads the properties at each use), a status of
`adult_invalid` clears the autism state, otherwise the autism URL and
data are stored; when the guard is falsy the autism state is also
cleared. -/
def V1.autismSection (cfg : Config) (res : Json) (s2 : V1.State) :
    V1.State × Option String :=
  if (match res.field "autism_prediction_data" with
      | some v => jsTruthy v
      | none => false) &&
     (match jsOptChain (res.field "autism_prediction_data") "annotated_image_path" with
      | some v => jsTruthy v
      | none => false) then
    if statusEq res "adult_invalid" then
      ({s2 with autismAnnotatedImageUrl := none, autismAnalysis := Json.obj []}, none)
    else
      match jsOptChain (res.field "autism_prediction_data") "annotated_image_path" with
      | some (.str ps) =>
        ({s2 with autismAnnotatedImageUrl := some (resolveUrl cfg.API_BASE_URL ps)
                  autismAnalysis :=
                    match res.field "autism_prediction_data" with
                    | some v => v
                    | none => Json.null},
         none)
      | _ => (s2, some "TypeError")
  else
    ({s2 with autismAnnotatedImageUrl := none, autismAnalysis := Json.obj []}, none)

/-- `setBackendMessage(res.message || '')` (line 104), with the stored
value coerced to a string as the renderer's string methods use it. -/
def V1.withBackendMessage (res : Json) (s0 : V1.State) : V1.State :=
  {s0 with backendMessage :=
    match res.field "message" with
    | some v => if jsTruthy v then jsString v else ""
    | none => ""}

/-- The response-processing section of the MUI variant's `handleAnalyze`
(lines 104-147), applied to the state produced by
`resetStateExceptImage`: backend message, then the age section, then the
autism section, then the completion snackbar (`res.message ||
'Analysis complete.'` with a warning severity on `adult_invalid`).
Returns the state reached together with `some "TypeError"` when a step
throws. -/
def V1.applyResponse (cfg : Config) (res : Json) (s0 : V1.State) :
    V1.State × Option String :=
  match V1.ageSection cfg res (V1.withBackendMessage res s0) with
  | (s2, some e) => (s2, some e)
  | (s2, none) =>
    match V1.autismSection cfg res s2 with
    | (s3, some e) => (s3, some e)
    | (s3, none) =>
      ({s3 with snackbar :=
        ⟨true,
         (match res.field "message" with
          | some v => if jsTruthy v then jsString v else "Analysis complete."
          | none => "Analysis complete."),
         if statusEq res "adult_invalid" then "warning" else "success"⟩}, none)

/-- `handleAnalyze` of the MUI variant: no-op without a selected image;
otherwise sets the processing flag, clears previous results, runs
`analyzeImage`, applies the response on success, and on any thrown error
(including a throw inside the response processing) records the message in
`error` and an error snackbar; the processing flag is always cleared. -/
def V1.handleAnalyze (cfg : Config) (net : FetchOutcome) (s : V1.State) : V1.State :=
  match s.selectedImage with
  | none => s
  | some _ =>
    match Api.analyzeImage cfg s.selectedImage net with
    | .ok res =>
      match V1.applyResponse cfg res
          (V1.resetStateExceptImage {s with isProcessing := true}) with
      | (st, none) => {st with isProcessing := false}
      | (st, some e) =>
        {st with error := some e, snackbar := ⟨true, e, "error"⟩, isProcessing := false}
    | .error e =>
      {(V1.resetStateExceptImage {s with isProcessing := true}) with
        error := some e, snackbar := ⟨true, e, "error"⟩, isProcessing := false}

/-- User-visible events of the MUI variant. -/
inductive V1.Event where
  | select (f : Option JFile) : V1.Event
  | capture (shot : String) (bytes : ℕ) : V1.Event
  | analyze (net : FetchOutcome) : V1.Event
  | reset : V1.Event

/-- One event step of the MUI variant. -/
def V1.step (cfg : Config) (s : V1.State) : V1.Event → V1.State
  | .select f => V1.handleImageSelect f s
  | .capture shot bytes => V1.captureFromWebcam shot bytes s
  | .analyze net => V1.handleAnalyze cfg net s
  | .reset => V1.handleReset s

/-- Run of the MUI variant over an event sequence. -/
def V1.run (cfg : Config) (evs : List V1.Event) (s : V1.State) : V1.State :=
  evs.foldl (V1.step cfg) s

/-- Whether the MUI variant's autism card shows the regional-analysis
table: `autismAnalysis.results && autismAnalysis.results.length > 0`
(line 405). -/
def V1.showsAutismTable (s : V1.State) : Bool :=
  match s.autismAnalysis.field "results" with
  | some v => jsTruthy v && jsLengthGtZero v
  | none => false

/-- Whether the MUI variant's autism card shows an annotated image
(line 380). -/
def V1.showsAutismImage (s : V1.State) : Bool :=
  s.autismAnnotatedImageUrl.isSome

/-- The two confidence-band functions.  `getConfidenceColor` is the MUI
variant's chip colouring (line 177): green = high, amber = medium,
red = low. -/
def getConfidenceColor (conf : ℚ) : String :=
  if conf ≥ 70 then "#16a34a" else if conf ≥ 40 then "#ca8a04" else "#dc2626"

/-- `getConfidenceClass` from the plain variant's `ConfidenceLevel`
component (lines 500-504). -/
def getConfidenceClass (confidence : ℚ) : String :=
  if confidence ≥ 70 then "confidence-high"
  else if confidence ≥ 40 then "confidence-medium"
  else "confidence-low"

/-- State of the plain-React variant, with the same ghost object-URL
bookkeeping as `V1.State`; `fileInputValue` models the DOM file input's
`value` cleared by reset. -/
structure V2.State where
  selectedFile : Option JFile
  previewUrl : Option ℕ
  isLoading : Bool
  error : Option String
  result : Option Json
  isDragOver : Bool
  fileInputValue : String
  nextHandle : ℕ
  created : List ℕ
  revoked : List ℕ

/-- Initial state of the plain variant. -/
def V2.init : V2.State where
  selectedFile := none
  previewUrl := none
  isLoading := false
  error := none
  result := none
  isDragOver := false
  fileInputValue := ""
  nextHandle := 0
  created := []
  revoked := []

/-- `validateFile` of the plain variant (lines 597-614): missing file,
then `type.startsWith('image/')`, then the literal 10MB bound; the error
message of the first failed check is reported (via `setError`). -/
def V2.validateFile (file : Option JFile) : Option String :=
  match file with
  | none => some "No file selected"
  | some f =>
    if !(jsStartsWith f.type "image/") then
      some "Invalid file type. Please select an image file."
    else if f.size > 10 * 1024 * 1024 then
      some "File too large. Please select an image smaller than 10MB."
    else none

/-- `handleFileSelect` of the plain variant: clears error and result,
validates, and only on success stores the file and creates a fresh
object-URL preview (the previous preview is not revoked). -/
def V2.handleFileSelect (file : Option JFile) (s : V2.State) : V2.State :=
  let s1 := {s with error := none, result := none}
  match V2.validateFile file with
  | some e => {s1 with error := some e}
  | none =>
    {s1 with selectedFile := file
             previewUrl := some s.nextHandle
             nextHandle := s.nextHandle + 1
             created := s.created ++ [s.nextHandle]}

/-- `handleReset` of the plain variant: clears file, preview, error and
result and empties the file input; no `URL.revokeObjectURL` call exists
here. -/
def V2.handleReset (s : V2.State) : V2.State :=
  {s with selectedFile := none
          previewUrl := none
          error := none
          result := none
          fileInputValue := ""}

/-- The fetch-and-parse section of the plain variant's `handleAnalyze`
(lines 693-712) together with its catch mapping (lines 716-722).  The
`fetch` call carries no abort signal and no timer, so the settling time
of the outcome is never consulted: a transport failure maps to the
network message, a non-2xx status (message containing `HTTP error`) maps
to the server-error message, a falsy or non-`object`-typed body throws
`Unexpected result format`, and anything else is returned as the result. -/
def V2.fetchProcess (net : FetchOutcome) : Except String Json :=
  match net with
  | .fails _ => .error "Network error. Please check your connection and try again."
  | .resolves _ status _ body =>
    if !(200 ≤ status && status ≤ 299) then
      .error "Server error. Please try again later."
    else if !jsTruthy body || !jsTypeofObject body then
      .error "Unexpected result format"
    else .ok body

/-- `handleAnalyze` of the plain variant: error without a selected file;
otherwise clears error/result, runs the fetch, stores the parsed body on
success and the mapped message on failure; the loading flag is always
cleared. -/
def V2.handleAnalyze (net : FetchOutcome) (s : V2.State) : V2.State :=
  match s.selectedFile with
  | none => {s with error := some "Please select an image first"}
  | some _ =>
    let s1 := {s with isLoading := true, error := none, result := none}
    match V2.fetchProcess net with
    | .ok data => {s1 with result := some data, isLoading := false}
    | .error e => {s1 with error := some e, isLoading := false}

/-- User-visible events of the plain variant. -/
inductive V2.Event where
  | select (f : Option JFile) : V2.Event
  | drop (fs : List JFile) : V2.Event
  | analyze (net : FetchOutcome) : V2.Event
  | reset : V2.Event

/-- One event step of the plain variant (`handleDrop` forwards the first
dropped file to `handleFileSelect`). -/
def V2.step (s : V2.State) : V2.Event → V2.State
  | .select f => V2.handleFileSelect f s
  | .drop fs =>
    match fs with
    | [] => s
    | f :: _ => V2.handleFileSelect (some f) s
  | .analyze net => V2.handleAnalyze net s
  | .reset => V2.handleReset s

/-- Run of the plain variant over an event sequence. -/
def V2.run (evs : List V2.Event) (s : V2.State) : V2.State :=
  evs.foldl V2.step s

/-- What one invocation of the plain variant's `renderResults` puts on
screen. -/
structure RenderOut where
  spinner : Bool
  placeholder : Bool
  autismImage : Option String
  autismTable : Option Json
  finalDecision : Option (String × String)
  ageImage : Option String
  adultNotice : Bool
  ageSummary : Option Json
  notice : Option String

/-- The empty rendering. -/
def RenderOut.empty : RenderOut where
  spinner := false
  placeholder := false
  autismImage := none
  autismTable := none
  finalDecision := none
  ageImage := none
  adultNotice := false
  ageSummary := none
  notice := none

/-- `AgeSummary` visibility (lines 545-582): shown when the summary and
its `annotations` property are both truthy; the rendering of the
annotations themselves never throws, so the payload is kept as-is. -/
def V2.ageSummaryOut (acs : Option Json) : Option Json :=
  match acs with
  | some a =>
    if jsTruthy a then
      match a.field "annotations" with
      | some ann => if jsTruthy ann then some ann else none
      | none => none
    else none
  | none => none

/-- `Array.prototype.find(r => r.final_decision-like truthy key)` with
JavaScript throw semantics: reading the key on a `null` element throws a
`TypeError`. -/
def jsFindTruthyKey (k : String) : List Json → Except String (Option Json)
  | [] => .ok none
  | e :: rest =>
    match e with
    | .null => .error "TypeError"
    | _ =>
      match e.field k with
      | some v => if jsTruthy v then .ok (some e) else jsFindTruthyKey k rest
      | none => jsFindTruthyKey k rest

/-- The `child_autism_screened` branch of `renderResults`
(lines 753-789).  Throws (`Except.error`) where the JavaScript throws
inside the `try` block: `startsWith` on a truthy non-string path, `find`
on a truthy non-array `results`, reading `final_decision` off a `null`
element, and `toLowerCase` on a truthy non-string decision. -/
def V2.renderChild (r : Json) : Except String RenderOut :=
  match
    (match jsOptChain (r.field "autism_prediction_data") "annotated_image_path" with
     | some p =>
       if jsTruthy p then
         match p with
         | .str ps => Except.ok (some (resolveUrl "https://age-api-zzc8.onrender.com" ps))
         | _ => Except.error "TypeError"
       else Except.ok none
     | none => Except.ok (none : Option String)) with
  | .error e => .error e
  | .ok img =>
    match
      (match jsOptChain (r.field "autism_prediction_data") "results" with
       | some rs =>
         if jsTruthy rs then
           match rs with
           | .arr elems =>
             match jsFindTruthyKey "final_decision" elems with
             | .error e => Except.error e
             | .ok none => Except.ok (none : Option (String × String))
             | .ok (some fd) =>
               match fd.field "final_decision" with
               | some (.str ds) =>
                 Except.ok (some (ds,
                   if strContains ds.toLower "autistic" then "final-decision autistic"
                   else "final-decision non-autistic"))
               | some _ => Except.error "TypeError"
               | none => Except.ok none
           | _ => Except.error "TypeError"
         else Except.ok none
       | none => Except.ok (none : Option (String × String))) with
    | .error e => .error e
    | .ok fdOut =>
      .ok {RenderOut.empty with
            autismImage := img
            autismTable :=
              (match jsOptChain (r.field "autism_prediction_data") "results" with
               | some rs => if jsTruthy rs then some rs else none
               | none => none)
            finalDecision := fdOut
            ageSummary := V2.ageSummaryOut (r.field "age_check_summary")}

/-- The `adult_invalid` branch of `renderResults` (lines 791-814): only
the top-level `annotated_image_url`, the fixed adult notice and the age
summary; no autism output is produced.  Throws on a truthy non-string
image value. -/
def V2.renderAdult (r : Json) : Except String RenderOut :=
  match
    (match r.field "annotated_image_url" with
     | some u =>
       if jsTruthy u then
         match u with
         | .str us => Except.ok (some (resolveUrl "https://age-api-zzc8.onrender.com" us))
         | _ => Except.error "TypeError"
       else Except.ok none
     | none => Except.ok (none : Option String)) with
  | .error e => .error e
  | .ok img =>
    .ok {RenderOut.empty with
          ageImage := img
          adultNotice := true
          ageSummary := V2.ageSummaryOut (r.field "age_check_summary")}

/-- The body of `renderResults`'s `try` block: branch on `status`, with
the unrecognized-status fallback notice. -/
def V2.renderInner (r : Json) : Except String RenderOut :=
  if statusEq r "child_autism_screened" then V2.renderChild r
  else if statusEq r "adult_invalid" then V2.renderAdult r
  else .ok {RenderOut.empty with notice := some "Unexpected result format. Please try again."}

/-- `renderResults` (lines 729-834): the loading spinner, the no-result
placeholder (also for a falsy result value), and otherwise the `try`
block whose exceptions are caught and converted to the
`Error displaying results` notice.  As a total function it never raises
to its caller. -/
def V2.renderResults (isLoading : Bool) (result : Option Json) : RenderOut :=
  if isLoading then {RenderOut.empty with spinner := true}
  else
    match result with
    | none => {RenderOut.empty with placeholder := true}
    | some r =>
      if !jsTruthy r then {RenderOut.empty with placeholder := true}
      else
        match V2.renderInner r with
        | .ok o => o
        | .error _ =>
          {RenderOut.empty with notice := some "Error displaying results. Please try again."}

/-- A value with any property can only be an object, hence truthy. -/
theorem field_some_truthy {r : Json} {k : String} {v : Json}
    (h : r.field k = some v) : jsTruthy r = true := by
  cases r <;> simp [Json.field, jsTruthy] at h ⊢

/-- Strict status comparison is truthy for at most one string. -/
theorem statusEq_ne {r : Json} {a b : String}
    (h : statusEq r a = true) (hab : a ≠ b) : statusEq r b = false := by
  unfold statusEq at h ⊢
  cases hr : r.field "status" with
  | none => rw [hr] at h
  | some v =>
    rw [hr] at h
    cases v with
    | str t =>
      have ht : t = a := by simpa [beq_iff_eq] using h
      subst ht
      simpa [beq_eq_false_iff_ne] using hab
    | null => simp at h
    | bool b2 => simp at h
    | num q => simp at h
    | arr xs => simp at h
    | obj kvs => simp at h

/-- A value whose `status` strictly equals some string is truthy. -/
theorem statusEq_truthy {r : Json} {a : String}
    (h : statusEq r a = true) : jsTruthy r = true := by
  unfold statusEq at h
  cases hr : r.field "status" with
  | none => rw [hr] at h; simp at h
  | some v => exact field_some_truthy hr

/-- C2: for every confidence value c, the displayed band is high exactly
when c ≥ 70, medium exactly when 40 ≤ c < 70 and low exactly when c < 40,
in both confidence-rendering components (the plain variant's CSS class
and the MUI variant's chip colour, green/amber/red respectively). -/
theorem C2_confidence_bands (c : ℚ) :
    (getConfidenceClass c = "confidence-high" ↔ 70 ≤ c) ∧
    (getConfidenceClass c = "confidence-medium" ↔ 40 ≤ c ∧ c < 70) ∧
    (getConfidenceClass c = "confidence-low" ↔ c < 40) ∧
    (getConfidenceColor c = "#16a34a" ↔ 70 ≤ c) ∧
    (getConfidenceColor c = "#ca8a04" ↔ 40 ≤ c ∧ c < 70) ∧
    (getConfidenceColor c = "#dc2626" ↔ c < 40) := by
  have d1 : ("confidence-high" : String) ≠ "confidence-medium" := by decide
  have d2 : ("confidence-high" : String) ≠ "confidence-low" := by decide
  have d3 : ("confidence-medium" : String) ≠ "confidence-low" := by decide
  have e1 : ("#16a34a" : String) ≠ "#ca8a04" := by decide
  have e2 : ("#16a34a" : String) ≠ "#dc2626" := by decide
  have e3 : ("#ca8a04" : String) ≠ "#dc2626" := by decide
  by_cases h70 : (70 : ℚ) ≤ c
  · have h40 : (40 : ℚ) ≤ c := le_trans (by norm_num) h70
    have hn70 : ¬c < 70 := not_lt.mpr h70
    have hn40 : ¬c < 40 := not_lt.mpr h40
    simp [getConfidenceClass, getConfidenceColor, ge_iff_le, h70, h40, hn70, hn40,
      d1, d2, e1, e2]
  · by_cases h40 : (40 : ℚ) ≤ c
    · have hl70 : c < 70 := not_le.mp h70
      have hn40 : ¬c < 40 := not_lt.mpr h40
      simp [getConfidenceClass, getConfidenceColor, ge_iff_le, h70, h40, hl70, hn40,
        d1.symm, d3, e1.symm, e3]
    · have hl40 : c < 40 := not_le.mp h40
      have hl70 : c < 70 := lt_trans hl40 (by norm_num)
      simp [getConfidenceClass, getConfidenceColor, ge_iff_le, h70, h40, hl40, hl70,
        d2.symm, d3.symm, e2.symm, e3.symm]

/-- C2 witness: the boundary values 70, 40 and 39.9 land in the high,
medium and low bands in both components. -/
theorem C2_confidence_bands_witness :
    getConfidenceClass 70 = "confidence-high" ∧
    getConfidenceClass 40 = "confidence-medium" ∧
    getConfidenceClass (399 / 10) = "confidence-low" ∧
    getConfidenceColor (699 / 10) = "#ca8a04" :=
  ⟨(C2_confidence_bands 70).1.mpr (by norm_num),
   (C2_confidence_bands 40).2.1.mpr (by norm_num),
   (C2_confidence_bands (399 / 10)).2.2.1.mpr (by norm_num),
   (C2_confidence_bands (699 / 10)).2.2.2.2.1.mpr (by norm_num)⟩

/-- C5: a path starting with `http` resolves to itself; any other path
resolves to the base origin concatenated with the path. -/
theorem C5_image_url_resolution (base p : String) :
    (jsStartsWith p "http" = true → resolveUrl base p = p) ∧
    (jsStartsWith p "http" = false → resolveUrl base p = base ++ p) := by
  constructor <;> intro h <;> simp [resolveUrl, h]

/-- C5 witness: an absolute URL passes through unchanged; a root-relative
path gets the base origin prefixed. -/
theorem C5_image_url_resolution_witness :
    resolveUrl "https://age-api-zzc8.onrender.com" "http://cdn.example.com/a.png" =
      "http://cdn.example.com/a.png" ∧
    resolveUrl "https://age-api-zzc8.onrender.com" "/static/a.png" =
      "https://age-api-zzc8.onrender.com/static/a.png" :=
  ⟨(C5_image_url_resolution "https://age-api-zzc8.onrender.com"
      "http://cdn.example.com/a.png").1 (by decide),
   (C5_image_url_resolution "https://age-api-zzc8.onrender.com"
      "/static/a.png").2 (by decide)⟩

/-- A 15MB `text/plain` file: disallowed type and oversize at once. -/
def badFile : JFile := ⟨"big.txt", "text/plain", 15 * 1024 * 1024⟩

/-- A small valid JPEG file. -/
def wFile : JFile := ⟨"photo.jpg", "image/jpeg", 1024⟩

/-- C10: a file failing both checks is rejected with the invalid-type
error, not the oversize error — the MIME check runs first in both
implementations, and the two messages are distinct. -/
theorem C10_type_check_before_size_check (cfg : Config) (f : JFile)
    (h1 : cfg.ALLOWED_TYPES.contains f.type = false)
    (h2 : jsStartsWith f.type "image/" = false)
    (h3 : f.size > cfg.MAX_FILE_SIZE)
    (h4 : f.size > 10 * 1024 * 1024) :
    Api.validateFile cfg (some f) = .error cfg.INVALID_FILE_TYPE ∧
    V2.validateFile (some f) = some "Invalid file type. Please select an image file." ∧
    specConfig.INVALID_FILE_TYPE ≠ specConfig.FILE_TOO_LARGE ∧
    ("Invalid file type. Please select an image file." ≠
      ("File too large. Please select an image smaller than 10MB." : String)) := by
  refine ⟨?_, ?_, by decide, by decide⟩
  · simp only [Api.validateFile]
    rw [h1]
    rfl
  · simp only [V2.validateFile]
    rw [h2]
    rfl

/-- C10 witness: the 15MB `text/plain` file draws the type error from
both implementations. -/
theorem C10_type_check_before_size_check_witness :
    Api.validateFile specConfig (some badFile) = .error specConfig.INVALID_FILE_TYPE ∧
    V2.validateFile (some badFile) = some "Invalid file type. Please select an image file." ∧
    specConfig.INVALID_FILE_TYPE ≠ specConfig.FILE_TOO_LARGE ∧
    ("Invalid file type. Please select an image file." ≠
      ("File too large. Please select an image smaller than 10MB." : String)) :=
  C10_type_check_before_size_check specConfig badFile (by decide) (by decide)
    (by decide) (by decide)

/-- C6 counterexample: the MUI variant's `handleImageSelect` accepts the
15MB `text/plain` file as the selected image, with no validation error —
validation does not run before acceptance in that variant. -/
theorem C6_counterexample :
    (V1.handleImageSelect (some badFile) V1.init).selectedImage = some badFile ∧
    (V1.handleImageSelect (some badFile) V1.init).error = none :=
  ⟨rfl, rfl⟩

/-- C6 amended: in the plain variant, validation runs before acceptance —
a non-image MIME type draws the type-specific message, an image-typed
file over 10MB draws the distinct size-specific message, and a rejected
file leaves the currently-selected file unchanged; the MUI variant's
`handleImageSelect` accepts any supplied file without validation
(validation happens only inside `analyzeImage` at submission time). -/
theorem C6_validation_before_acceptance (f : JFile) (s2 : V2.State) (s1 : V1.State) :
    (jsStartsWith f.type "image/" = false →
      (V2.handleFileSelect (some f) s2).error =
        some "Invalid file type. Please select an image file." ∧
      (V2.handleFileSelect (some f) s2).selectedFile = s2.selectedFile) ∧
    (jsStartsWith f.type "image/" = true → f.size > 10 * 1024 * 1024 →
      (V2.handleFileSelect (some f) s2).error =
        some "File too large. Please select an image smaller than 10MB." ∧
      (V2.handleFileSelect (some f) s2).selectedFile = s2.selectedFile) ∧
    ("Invalid file type. Please select an image file." ≠
      ("File too large. Please select an image smaller than 10MB." : String)) ∧
    (V1.handleImageSelect (some f) s1).selectedImage = some f := by
  refine ⟨?_, ?_, by decide, rfl⟩
  · intro h
    have hv : V2.validateFile (some f) =
        some "Invalid file type. Please select an image file." := by
      simp only [V2.validateFile]
      rw [h]
      rfl
    simp only [V2.handleFileSelect]
    rw [hv]
    exact ⟨rfl, rfl⟩
  · intro h hs
    have hv : V2.validateFile (some f) =
        some "File too large. Please select an image smaller than 10MB." := by
      simp only [V2.validateFile]
      rw [h]
      simp [hs]
    simp only [V2.handleFileSelect]
    rw [hv]
    exact ⟨rfl, rfl⟩

/-- C6 witness: the 15MB `text/plain` file is rejected by the plain
variant with the type message and the selection is untouched. -/
theorem C6_validation_before_acceptance_witness :
    (V2.handleFileSelect (some badFile) V2.init).error =
      some "Invalid file type. Please select an image file." ∧
    (V2.handleFileSelect (some badFile) V2.init).selectedFile = none :=
  ⟨((C6_validation_before_acceptance badFile V2.init V1.init).1 (by decide)).1,
   ((C6_validation_before_acceptance badFile V2.init V1.init).1 (by decide)).2⟩

/-- C3 counterexample: a 2xx body carrying an explicit `error` field is
returned as success — `analyzeImage` because the empty string is falsy,
the plain variant's `handleAnalyze` because it never consults `error`. -/
theorem C3_counterexample :
    Api.analyzeImage specConfig (some wFile)
        (.resolves 0 200 "OK" (Json.obj [("error", Json.str "")])) =
      .ok (Json.obj [("error", Json.str "")]) ∧
    V2.fetchProcess (.resolves 0 200 "OK" (Json.obj [("error", Json.str "boom")])) =
      .ok (Json.obj [("error", Json.str "boom")]) :=
  ⟨rfl, rfl⟩

/-- C3 amended: on a 2xx response within the deadline, `analyzeImage`
fails exactly on a falsy or non-`object`-typed body (with the fixed
invalid-format message) or on a truthy `error` value (with `String` of
that value as the message); a falsy `error` value and a missing `error`
field are returned as success.  The plain variant rejects only
falsy/non-object bodies, with its own fixed message, and returns every
other body — `error` field or not — as success. -/
theorem C3_invalid_response_handling (cfg : Config) (f : JFile) (t status : ℕ)
    (stx : String) (body : Json)
    (hf : Api.validateFile cfg (some f) = .ok true)
    (ht : t ≤ cfg.LOADING_TIMEOUT)
    (h2 : 200 ≤ status) (h3 : status ≤ 299) :
    (Api.analyzeImage cfg (some f) (.resolves t status stx body) =
      Api.validateBody body) ∧
    ((jsTruthy body = false ∨ jsTypeofObject body = false) →
      Api.validateBody body = .error "Invalid response format from server" ∧
      V2.fetchProcess (.resolves t status stx body) = .error "Unexpected result format") ∧
    (∀ v, jsTruthy body = true → jsTypeofObject body = true →
      body.field "error" = some v → jsTruthy v = true →
      Api.validateBody body = .error (jsString v)) ∧
    (∀ v, jsTruthy body = true → jsTypeofObject body = true →
      body.field "error" = some v → jsTruthy v = false →
      Api.validateBody body = .ok body) ∧
    (jsTruthy body = true → jsTypeofObject body = true →
      body.field "error" = none → Api.validateBody body = .ok body) ∧
    (jsTruthy body = true → jsTypeofObject body = true →
      V2.fetchProcess (.resolves t status stx body) = .ok body) := by
  have hnt : ¬t > cfg.LOADING_TIMEOUT := by omega
  have hok : (200 ≤ status && status ≤ 299) = true := by simp [h2, h3]
  refine ⟨?_, ?_, ?_, ?_, ?_, ?_⟩
  · simp only [Api.analyzeImage]
    rw [hf]
    simp [hnt, hok]
  · intro hcase
    constructor
    · rcases hcase with hc | hc <;> simp [Api.validateBody, hc]
    · rcases hcase with hc | hc <;> simp [V2.fetchProcess, hok, hc]
  · intro v hT hO hfield hv
    simp [Api.validateBody, hT, hO, hfield, hv]
  · intro v hT hO hfield hv
    simp [Api.validateBody, hT, hO, hfield, hv]
  · intro hT hO hfield
    simp [Api.validateBody, hT, hO, hfield]
  · intro hT hO
    simp [V2.fetchProcess, hok, hT, hO]

/-- C3 witness: a truthy `error` string fails `analyzeImage`'s body
validation with that string as the message, while the plain variant
returns the same body as success. -/
theorem C3_invalid_response_handling_witness :
    Api.validateBody (Json.obj [("error", Json.str "boom")]) = .error "boom" ∧
    V2.fetchProcess (.resolves 0 200 "OK" (Json.obj [("error", Json.str "boom")])) =
      .ok (Json.obj [("error", Json.str "boom")]) := by
  have h := C3_invalid_response_handling specConfig wFile 0 200 "OK"
    (Json.obj [("error", Json.str "boom")]) (by rfl) (by decide) (by decide) (by decide)
  exact ⟨h.2.2.1 (Json.str "boom") rfl rfl rfl rfl, h.2.2.2.2.2 rfl rfl⟩

/-- A minimal recognized analysis body used by whole-flow examples. -/
def wRes : Json := Json.obj [("status", Json.str "child_autism_screened")]

/-- C4 counterexample: in the plain variant, a network call that resolves
only after the configured deadline has expired still completes as a
success — its `fetch` carries no abort signal and no timer, so nothing is
aborted and no timeout error is ever produced. -/
theorem C4_counterexample :
    (V2.handleAnalyze (.resolves (specConfig.LOADING_TIMEOUT + 1) 200 "OK" wRes)
        {V2.init with selectedFile := some wFile}).result = some wRes ∧
    (V2.handleAnalyze (.resolves (specConfig.LOADING_TIMEOUT + 1) 200 "OK" wRes)
        {V2.init with selectedFile := some wFile}).error = none :=
  ⟨rfl, rfl⟩

/-- C4 amended: `analyzeImage` in `api.js` applies the client-side
timeout — whenever the network call settles after the deadline, the
in-flight request is aborted and the call fails with the timeout message,
distinct from the network-error message, and at most one fetch is ever
issued (no retry).  The plain variant's `handleAnalyze` applies no
timeout: its outcome is independent of the settling time. -/
theorem C4_timeout_handling (cfg : Config) (f : JFile) (net : FetchOutcome)
    (hf : Api.validateFile cfg (some f) = .ok true)
    (ht : net.time > cfg.LOADING_TIMEOUT) :
    Api.analyzeImage cfg (some f) net = .error "Request timed out. Please try again." ∧
    ("Request timed out. Please try again." ≠ specConfig.NETWORK_ERROR) ∧
    Api.analyzeImageFetchCount cfg (some f) = 1 ∧
    (∀ t1 t2 st stx body, V2.fetchProcess (.resolves t1 st stx body) =
      V2.fetchProcess (.resolves t2 st stx body)) ∧
    (∀ t1 t2, V2.fetchProcess (.fails t1) = V2.fetchProcess (.fails t2)) := by
  refine ⟨?_, by decide, ?_, fun t1 t2 st stx body => rfl, fun t1 t2 => rfl⟩
  · cases net with
    | resolves t st stx body =>
      simp only [FetchOutcome.time] at ht
      simp only [Api.analyzeImage]
      rw [hf]
      simp [ht]
    | fails t =>
      simp only [FetchOutcome.time] at ht
      simp only [Api.analyzeImage]
      rw [hf]
      simp [ht]
  · simp only [Api.analyzeImageFetchCount]
    rw [hf]

/-- C4 witness: a response arriving one millisecond past the deadline is
turned into the timeout failure by `analyzeImage`. -/
theorem C4_timeout_handling_witness :
    Api.analyzeImage specConfig (some wFile)
        (.resolves (specConfig.LOADING_TIMEOUT + 1) 200 "OK" wRes) =
      .error "Request timed out. Please try again." :=
  (C4_timeout_handling specConfig wFile
    (.resolves (specConfig.LOADING_TIMEOUT + 1) 200 "OK" wRes) rfl (by decide)).1

/-- The empty-UI predicate of the MUI variant, as the claim enumerates
it: no selected image, no preview, no result/analysis data, no error. -/
def V1.emptyUI (s : V1.State) : Prop :=
  s.selectedImage = none ∧ s.previewUrl = none ∧
  s.ageAnnotatedImageUrl = none ∧ s.autismAnnotatedImageUrl = none ∧
  s.ageAnalysis = Json.obj [] ∧ s.autismAnalysis = Json.obj [] ∧
  s.backendMessage = "" ∧ s.error = none

/-- The empty-UI predicate of the plain variant. -/
def V2.emptyUI (s : V2.State) : Prop :=
  s.selectedFile = none ∧ s.previewUrl = none ∧ s.result = none ∧ s.error = none

/-- Reset always reaches the empty UI in the MUI variant. -/
theorem V1.reset_empty (s : V1.State) : V1.emptyUI (V1.handleReset s) := by
  obtain ⟨i, p, pr, bm, a1, a2, aa, au, er, sb, sw, nh, cr, rv⟩ := s
  cases p with
  | none => exact ⟨rfl, rfl, rfl, rfl, rfl, rfl, rfl, rfl⟩
  | some ps => cases ps <;> exact ⟨rfl, rfl, rfl, rfl, rfl, rfl, rfl, rfl⟩

/-- Reset is idempotent on the full state of the MUI variant (the second
call finds no preview, so it revokes nothing further). -/
theorem V1.reset_idem (s : V1.State) :
    V1.handleReset (V1.handleReset s) = V1.handleReset s := by
  obtain ⟨i, p, pr, bm, a1, a2, aa, au, er, sb, sw, nh, cr, rv⟩ := s
  cases p with
  | none => rfl
  | some ps => cases ps <;> rfl

/-- Reset always reaches the empty UI in the plain variant. -/
theorem V2.reset_empty_plain (s : V2.State) : V2.emptyUI (V2.handleReset s) :=
  ⟨rfl, rfl, rfl, rfl⟩

/-- Reset is idempotent on the full state of the plain variant. -/
theorem V2.reset_idem_plain (s : V2.State) :
    V2.handleReset (V2.handleReset s) = V2.handleReset s := rfl

/-- C8: after any sequence of selections, captures, submissions and
resets from the initial state, one reset restores the empty UI the claim
enumerates (the initial state satisfies it), and a second reset leaves
the entire state unchanged — in both variants. -/
theorem C8_reset_idempotent (cfg : Config) (evs1 : List V1.Event) (evs2 : List V2.Event) :
    V1.emptyUI V1.init ∧ V2.emptyUI V2.init ∧
    V1.emptyUI (V1.handleReset (V1.run cfg evs1 V1.init)) ∧
    V1.handleReset (V1.handleReset (V1.run cfg evs1 V1.init)) =
      V1.handleReset (V1.run cfg evs1 V1.init) ∧
    V2.emptyUI (V2.handleReset (V2.run evs2 V2.init)) ∧
    V2.handleReset (V2.handleReset (V2.run evs2 V2.init)) =
      V2.handleReset (V2.run evs2 V2.init) :=
  ⟨⟨rfl, rfl, rfl, rfl, rfl, rfl, rfl, rfl⟩, ⟨rfl, rfl, rfl, rfl⟩,
   V1.reset_empty _, V1.reset_idem _, V2.reset_empty_plain _, V2.reset_idem_plain _⟩

/-- No step of the plain variant ever calls `URL.revokeObjectURL`. -/
theorem V2.step_revoked (s : V2.State) (e : V2.Event) :
    (V2.step s e).revoked = s.revoked := by
  cases e with
  | select f =>
    simp only [V2.step, V2.handleFileSelect]
    split <;> rfl
  | drop fs =>
    cases fs with
    | nil => rfl
    | cons f rest =>
      simp only [V2.step, V2.handleFileSelect]
      split <;> rfl
  | analyze net =>
    simp only [V2.step, V2.handleAnalyze]
    split
    · rfl
    · split <;> rfl
  | reset => rfl

/-- Over any run of the plain variant the revocation log never grows. -/
theorem V2.run_revoked (evs : List V2.Event) (s : V2.State) :
    (V2.run evs s).revoked = s.revoked := by
  induction evs generalizing s with
  | nil => rfl
  | cons e rest ih => exact (ih (V2.step s e)).trans (V2.step_revoked s e)

/-- The age section of the MUI response processing leaves the ghost
object-URL bookkeeping and the preview untouched. -/
theorem V1.ageSection_ghost (cfg : Config) (res : Json) (s1 : V1.State) :
    (V1.ageSection cfg res s1).1.previewUrl = s1.previewUrl ∧
    (V1.ageSection cfg res s1).1.nextHandle = s1.nextHandle ∧
    (V1.ageSection cfg res s1).1.created = s1.created ∧
    (V1.ageSection cfg res s1).1.revoked = s1.revoked := by
  unfold V1.ageSection
  repeat' split
  all_goals exact ⟨rfl, rfl, rfl, rfl⟩

/-- The autism section of the MUI response processing leaves the ghost
object-URL bookkeeping and the preview untouched. -/
theorem V1.autismSection_ghost (cfg : Config) (res : Json) (s2 : V1.State) :
    (V1.autismSection cfg res s2).1.previewUrl = s2.previewUrl ∧
    (V1.autismSection cfg res s2).1.nextHandle = s2.nextHandle ∧
    (V1.autismSection cfg res s2).1.created = s2.created ∧
    (V1.autismSection cfg res s2).1.revoked = s2.revoked := by
  unfold V1.autismSection
  repeat' split
  all_goals exact ⟨rfl, rfl, rfl, rfl⟩

/-- The whole MUI response processing leaves the ghost object-URL
bookkeeping and the preview untouched. -/
theorem V1.applyResponse_ghost (cfg : Config) (res : Json) (s0 : V1.State) :
    (V1.applyResponse cfg res s0).1.previewUrl = s0.previewUrl ∧
    (V1.applyResponse cfg res s0).1.nextHandle = s0.nextHandle ∧
    (V1.applyResponse cfg res s0).1.created = s0.created ∧
    (V1.applyResponse cfg res s0).1.revoked = s0.revoked := by
  obtain ⟨ga1, ga2, ga3, ga4⟩ :=
    V1.ageSection_ghost cfg res (V1.withBackendMessage res s0)
  unfold V1.applyResponse
  split
  · rename_i s2 e heq
    rw [heq] at ga1 ga2 ga3 ga4
    exact ⟨ga1, ga2, ga3, ga4⟩
  · rename_i s2 heq
    rw [heq] at ga1 ga2 ga3 ga4
    obtain ⟨gb1, gb2, gb3, gb4⟩ := V1.autismSection_ghost cfg res s2
    split
    · rename_i s3 e2 heq2
      rw [heq2] at gb1 gb2 gb3 gb4
      exact ⟨gb1.trans ga1, gb2.trans ga2, gb3.trans ga3, gb4.trans ga4⟩
    · rename_i s3 heq2
      rw [heq2] at gb1 gb2 gb3 gb4
      exact ⟨gb1.trans ga1, gb2.trans ga2, gb3.trans ga3, gb4.trans ga4⟩

/-- `handleAnalyze` of the MUI variant leaves the ghost object-URL
bookkeeping and the preview untouched. -/
theorem V1.handleAnalyze_ghost (cfg : Config) (net : FetchOutcome) (s : V1.State) :
    (V1.handleAnalyze cfg net s).previewUrl = s.previewUrl ∧
    (V1.handleAnalyze cfg net s).nextHandle = s.nextHandle ∧
    (V1.handleAnalyze cfg net s).created = s.created ∧
    (V1.handleAnalyze cfg net s).revoked = s.revoked := by
  unfold V1.handleAnalyze
  split
  · exact ⟨rfl, rfl, rfl, rfl⟩
  · split
    · rename_i res heq
      obtain ⟨g1, g2, g3, g4⟩ := V1.applyResponse_ghost cfg res
        (V1.resetStateExceptImage {s with isProcessing := true})
      split
      · rename_i st heq2
        rw [heq2] at g1 g2 g3 g4
        exact ⟨g1, g2, g3, g4⟩
      · rename_i st e heq2
        rw [heq2] at g1 g2 g3 g4
        exact ⟨g1, g2, g3, g4⟩
    · exact ⟨rfl, rfl, rfl, rfl⟩

/-- Invariant of the MUI variant's object-URL bookkeeping: the
revocation log has no duplicates, every revoked handle was allocated, and
the current preview object URL is an allocated, not-yet-revoked handle. -/
def V1.HandleInv (s : V1.State) : Prop :=
  s.revoked.Nodup ∧ (∀ x ∈ s.revoked, x < s.nextHandle) ∧
  ∀ x, s.previewUrl = some (V1.PreviewSrc.objectUrl x) →
    x ∉ s.revoked ∧ x < s.nextHandle

/-- The initial state satisfies the handle invariant. -/
theorem V1.init_inv : V1.HandleInv V1.init := by
  refine ⟨List.nodup_nil, ?_, ?_⟩
  · intro x hx
    simp [V1.init] at hx
  · intro x hx
    simp [V1.init] at hx

/-- Field behaviour of a selection step. -/
theorem V1.handleImageSelect_fields (f : JFile) (s : V1.State) :
    (V1.handleImageSelect (some f) s).previewUrl =
      some (V1.PreviewSrc.objectUrl s.nextHandle) ∧
    (V1.handleImageSelect (some f) s).nextHandle = s.nextHandle + 1 ∧
    (V1.handleImageSelect (some f) s).created = s.created ++ [s.nextHandle] ∧
    (V1.handleImageSelect (some f) s).revoked = s.revoked :=
  ⟨rfl, rfl, rfl, rfl⟩

/-- Field behaviour of a reset step on the bookkeeping. -/
theorem V1.handleReset_fields (s : V1.State) :
    (V1.handleReset s).previewUrl = none ∧
    (V1.handleReset s).nextHandle = s.nextHandle ∧
    ((V1.handleReset s).revoked = s.revoked ∧
        (∀ x, s.previewUrl ≠ some (V1.PreviewSrc.objectUrl x)) ∨
      ∃ x, s.previewUrl = some (V1.PreviewSrc.objectUrl x) ∧
        (V1.handleReset s).revoked = s.revoked ++ [x]) := by
  cases hp : s.previewUrl with
  | none =>
    refine ⟨?_, ?_, Or.inl ⟨?_, ?_⟩⟩ <;>
      simp [V1.handleReset, hp]
  | some ps =>
    cases ps with
    | objectUrl x =>
      refine ⟨?_, ?_, Or.inr ⟨x, rfl, ?_⟩⟩ <;>
        simp [V1.handleReset, hp]
    | dataUri d =>
      refine ⟨?_, ?_, Or.inl ⟨?_, ?_⟩⟩ <;>
        simp [V1.handleReset, hp]

/-- Every event step preserves the handle invariant. -/
theorem V1.step_inv (cfg : Config) (s : V1.State) (e : V1.Event)
    (h : V1.HandleInv s) : V1.HandleInv (V1.step cfg s e) := by
  obtain ⟨hnd, hlt, hcur⟩ := h
  cases e with
  | select f =>
    cases f with
    | none => exact ⟨hnd, hlt, hcur⟩
    | some f =>
      obtain ⟨p1, p2, p3, p4⟩ := V1.handleImageSelect_fields f s
      refine ⟨?_, ?_, ?_⟩
      · rw [show (V1.step cfg s (V1.Event.select (some f))).revoked = s.revoked from p4]
        exact hnd
      · intro x hx
        rw [show (V1.step cfg s (V1.Event.select (some f))).revoked = s.revoked from p4] at hx
        rw [show (V1.step cfg s (V1.Event.select (some f))).nextHandle = s.nextHandle + 1 from p2]
        exact Nat.lt_succ_of_lt (hlt x hx)
      · intro x hx
        rw [show (V1.step cfg s (V1.Event.select (some f))).previewUrl =
            some (V1.PreviewSrc.objectUrl s.nextHandle) from p1] at hx
        have hxe : s.nextHandle = x := by
          simpa using hx
        subst hxe
        rw [show (V1.step cfg s (V1.Event.select (some f))).revoked = s.revoked from p4,
            show (V1.step cfg s (V1.Event.select (some f))).nextHandle = s.nextHandle + 1 from p2]
        refine ⟨fun hmem => ?_, Nat.lt_succ_self _⟩
        exact absurd (hlt _ hmem) (lt_irrefl _)
  | capture shot bytes =>
    refine ⟨hnd, hlt, ?_⟩
    intro x hx
    have : some (V1.PreviewSrc.dataUri shot) = some (V1.PreviewSrc.objectUrl x) := hx
    simp at this
  | analyze net =>
    obtain ⟨g1, g2, g3, g4⟩ := V1.handleAnalyze_ghost cfg net s
    refine ⟨?_, ?_, ?_⟩
    · rw [show (V1.step cfg s (V1.Event.analyze net)).revoked = s.revoked from g4]
      exact hnd
    · intro x hx
      rw [show (V1.step cfg s (V1.Event.analyze net)).revoked = s.revoked from g4] at hx
      rw [show (V1.step cfg s (V1.Event.analyze net)).nextHandle = s.nextHandle from g2]
      exact hlt x hx
    · intro x hx
      rw [show (V1.step cfg s (V1.Event.analyze net)).previewUrl = s.previewUrl from g1] at hx
      rw [show (V1.step cfg s (V1.Event.analyze net)).revoked = s.revoked from g4,
          show (V1.step cfg s (V1.Event.analyze net)).nextHandle = s.nextHandle from g2]
      exact hcur x hx
  | reset =>
    obtain ⟨r1, r2, r3⟩ := V1.handleReset_fields s
    rcases r3 with ⟨req, _⟩ | ⟨x, hx, req⟩
    · refine ⟨?_, ?_, ?_⟩
      · rw [show (V1.step cfg s V1.Event.reset).revoked = s.revoked from req]
        exact hnd
      · intro y hy
        rw [show (V1.step cfg s V1.Event.reset).revoked = s.revoked from req] at hy
        rw [show (V1.step cfg s V1.Event.reset).nextHandle = s.nextHandle from r2]
        exact hlt y hy
      · intro y hy
        rw [show (V1.step cfg s V1.Event.reset).previewUrl = none from r1] at hy
        exact absurd hy (by simp)
    · obtain ⟨hxr, hxn⟩ := hcur x hx
      refine ⟨?_, ?_, ?_⟩
      · rw [show (V1.step cfg s V1.Event.reset).revoked = s.revoked ++ [x] from req]
        simp [List.nodup_append, hnd, hxr]
      · intro y hy
        rw [show (V1.step cfg s V1.Event.reset).revoked = s.revoked ++ [x] from req] at hy
        rw [show (V1.step cfg s V1.Event.reset).nextHandle = s.nextHandle from r2]
        rcases List.mem_append.mp hy with hy1 | hy2
        · exact hlt y hy1
        · simp at hy2
          subst hy2
          exact hxn
      · intro y hy
        rw [show (V1.step cfg s V1.Event.reset).previewUrl = none from r1] at hy
        exact absurd hy (by simp)

/-- The handle invariant holds along every run. -/
theorem V1.run_inv (cfg : Config) (evs : List V1.Event) (s : V1.State)
    (h : V1.HandleInv s) : V1.HandleInv (V1.run cfg evs s) := by
  induction evs generalizing s with
  | nil => exact h
  | cons e rest ih => exact ih (V1.step cfg s e) (V1.step_inv cfg s e h)

/-- Once a handle is neither the current preview nor reachable, it stays
unrevoked forever: the only revocation site is reset, which revokes the
current preview. -/
def V1.Gone (h0 : ℕ) (s : V1.State) : Prop :=
  h0 < s.nextHandle ∧ s.previewUrl ≠ some (V1.PreviewSrc.objectUrl h0) ∧
  h0 ∉ s.revoked

/-- Every event step preserves `Gone`. -/
theorem V1.step_gone (cfg : Config) (h0 : ℕ) (s : V1.State) (e : V1.Event)
    (hg : V1.Gone h0 s) : V1.Gone h0 (V1.step cfg s e) := by
  obtain ⟨g1, g2, g3⟩ := hg
  cases e with
  | select f =>
    cases f with
    | none => exact ⟨g1, g2, g3⟩
    | some f =>
      obtain ⟨p1, p2, p3, p4⟩ := V1.handleImageSelect_fields f s
      refine ⟨?_, ?_, ?_⟩
      · rw [show (V1.step cfg s (V1.Event.select (some f))).nextHandle = s.nextHandle + 1 from p2]
        exact Nat.lt_succ_of_lt g1
      · rw [show (V1.step cfg s (V1.Event.select (some f))).previewUrl =
          some (V1.PreviewSrc.objectUrl s.nextHandle) from p1]
        intro hc
        have : s.nextHandle = h0 := by simpa using hc
        omega
      · rw [show (V1.step cfg s (V1.Event.select (some f))).revoked = s.revoked from p4]
        exact g3
  | capture shot bytes =>
    refine ⟨g1, ?_, g3⟩
    intro hc
    have : some (V1.PreviewSrc.dataUri shot) = some (V1.PreviewSrc.objectUrl h0) := hc
    simp at this
  | analyze net =>
    obtain ⟨a1, a2, a3, a4⟩ := V1.handleAnalyze_ghost cfg net s
    refine ⟨?_, ?_, ?_⟩
    · rw [show (V1.step cfg s (V1.Event.analyze net)).nextHandle = s.nextHandle from a2]
      exact g1
    · rw [show (V1.step cfg s (V1.Event.analyze net)).previewUrl = s.previewUrl from a1]
      exact g2
    · rw [show (V1.step cfg s (V1.Event.analyze net)).revoked = s.revoked from a4]
      exact g3
  | reset =>
    obtain ⟨r1, r2, r3⟩ := V1.handleReset_fields s
    refine ⟨?_, ?_, ?_⟩
    · rw [show (V1.step cfg s V1.Event.reset).nextHandle = s.nextHandle from r2]
      exact g1
    · rw [show (V1.step cfg s V1.Event.reset).previewUrl = none from r1]
      simp
    · rcases r3 with ⟨req, _⟩ | ⟨x, hx, req⟩
      · rw [show (V1.step cfg s V1.Event.reset).revoked = s.revoked from req]
        exact g3
      · rw [show (V1.step cfg s V1.Event.reset).revoked = s.revoked ++ [x] from req]
        intro hmem
        rcases List.mem_append.mp hmem with hm | hm
        · exact g3 hm
        · simp at hm
          subst hm
          exact g2 hx

/-- `Gone` holds along every run. -/
theorem V1.run_gone (cfg : Config) (h0 : ℕ) (evs : List V1.Event) (s : V1.State)
    (hg : V1.Gone h0 s) : V1.Gone h0 (V1.run cfg evs s) := by
  induction evs generalizing s with
  | nil => exact hg
  | cons e rest ih => exact ih (V1.step cfg s e) (V1.step_gone cfg h0 s e hg)

/-- C9 counterexample: in the plain variant, selecting a valid image
creates an object-URL handle and a subsequent reset releases nothing —
the handle is released zero times, not exactly once. -/
theorem C9_counterexample :
    (V2.run [V2.Event.select (some wFile), V2.Event.reset] V2.init).created = [0] ∧
    (V2.run [V2.Event.select (some wFile), V2.Event.reset] V2.init).revoked = [] :=
  ⟨rfl, rfl⟩

/-- C9 amended: no preview handle is ever released twice (the MUI
variant's revocation log stays duplicate-free over every run), but
handles can leak: the plain variant never revokes at all, and in the MUI
variant a handle replaced by a newer selection is never released in any
continuation of the trace. -/
theorem C9_preview_handle_release (cfg : Config) (evs1 : List V1.Event)
    (evs2 : List V2.Event) (f1 f2 : JFile) (tail : List V1.Event) :
    (V1.run cfg evs1 V1.init).revoked.Nodup ∧
    (V2.run evs2 V2.init).revoked = [] ∧
    0 ∉ (V1.run cfg (V1.Event.select (some f1) :: V1.Event.select (some f2) :: tail)
          V1.init).revoked := by
  refine ⟨(V1.run_inv cfg evs1 V1.init V1.init_inv).1, V2.run_revoked evs2 V2.init, ?_⟩
  have hg : V1.Gone 0
      (V1.step cfg (V1.step cfg V1.init (V1.Event.select (some f1)))
        (V1.Event.select (some f2))) := by
    refine ⟨?_, ?_, ?_⟩
    · show (0 : ℕ) < 2
      omega
    · show some (V1.PreviewSrc.objectUrl 1) ≠ some (V1.PreviewSrc.objectUrl 0)
      simp
    · intro hm
      exact (by simp : (0 : ℕ) ∉ ([] : List ℕ)) hm
  exact (V1.run_gone cfg 0 tail _ hg).2.2

/-- When the `adult_invalid` branch renders without throwing, its output
carries no autism image, no autism table and no final-decision box. -/
theorem V2.renderAdult_ok {r : Json} {o : RenderOut}
    (h : V2.renderAdult r = .ok o) :
    o.autismImage = none ∧ o.autismTable = none ∧ o.finalDecision = none := by
  unfold V2.renderAdult at h
  split at h
  · simp at h
  · injection h with h
    subst h
    exact ⟨rfl, rfl, rfl⟩

/-- A structurally-throwing child payload: a truthy non-string
`final_decision`, on which `toLowerCase` throws inside the renderer's
`try` block. -/
def throwRes : Json :=
  Json.obj [("status", Json.str "child_autism_screened"),
            ("autism_prediction_data",
              Json.obj [("results",
                Json.arr [Json.obj [("final_decision", Json.bool true)]])])]

/-- C7 counterexample: a rendering exception is converted to the
`Error displaying results` notice, which is not the same notice as the
`Unexpected result format` notice shown for an unrecognized status — the
two generic notices differ in wording. -/
theorem C7_counterexample :
    (V2.renderResults false (some throwRes)).notice =
      some "Error displaying results. Please try again." ∧
    (V2.renderResults false (some (Json.obj [("status", Json.str "weird")]))).notice =
      some "Unexpected result format. Please try again." ∧
    ("Error displaying results. Please try again." ≠
      ("Unexpected result format. Please try again." : String)) :=
  ⟨rfl, rfl, by decide⟩

/-- C7 amended: `renderResults` is a total function of the response (it
never raises to its caller): a truthy result with an unrecognized status
yields the `Unexpected result format` notice, and any exception thrown
during the renderer's own execution is caught and converted to the
generic `Error displaying results` notice — a notice of the same kind
but different wording. -/
theorem C7_render_safety (r : Json) :
    (jsTruthy r = true → statusEq r "child_autism_screened" = false →
      statusEq r "adult_invalid" = false →
      V2.renderResults false (some r) =
        {RenderOut.empty with notice := some "Unexpected result format. Please try again."}) ∧
    (∀ e, jsTruthy r = true → V2.renderInner r = .error e →
      V2.renderResults false (some r) =
        {RenderOut.empty with notice := some "Error displaying results. Please try again."}) := by
  constructor
  · intro hT hc ha
    simp [V2.renderResults, V2.renderInner, hT, hc, ha]
  · intro e hT he
    simp [V2.renderResults, hT, he]

/-- C7 witness: an unrecognized status draws the unexpected-format
notice; the throwing child payload draws the error-displaying notice. -/
theorem C7_render_safety_witness :
    V2.renderResults false (some (Json.obj [("status", Json.str "weird")])) =
      {RenderOut.empty with notice := some "Unexpected result format. Please try again."} ∧
    V2.renderResults false (some throwRes) =
      {RenderOut.empty with notice := some "Error displaying results. Please try again."} :=
  ⟨(C7_render_safety (Json.obj [("status", Json.str "weird")])).1 rfl rfl rfl,
   (C7_render_safety throwRes).2 "TypeError" rfl rfl⟩

/-- The age section never touches the autism state. -/
theorem V1.ageSection_autism (cfg : Config) (res : Json) (s1 : V1.State) :
    (V1.ageSection cfg res s1).1.autismAnnotatedImageUrl = s1.autismAnnotatedImageUrl ∧
    (V1.ageSection cfg res s1).1.autismAnalysis = s1.autismAnalysis := by
  unfold V1.ageSection
  repeat' split
  all_goals exact ⟨rfl, rfl⟩

/-- Under an `adult_invalid` status the autism section always clears the
autism state and never throws. -/
theorem V1.autismSection_adult {cfg : Config} {res : Json} (s2 : V1.State)
    (hst : statusEq res "adult_invalid" = true) :
    V1.autismSection cfg res s2 =
      ({s2 with autismAnnotatedImageUrl := none, autismAnalysis := Json.obj []}, none) := by
  unfold V1.autismSection
  simp [hst]

/-- Under an `adult_invalid` status the whole response processing leaves
the autism state cleared whenever it was cleared on entry (also on the
partial states kept when a step throws). -/
theorem V1.applyResponse_adult (cfg : Config) (res : Json) (s0 : V1.State)
    (hst : statusEq res "adult_invalid" = true)
    (h1 : s0.autismAnnotatedImageUrl = none)
    (h2 : s0.autismAnalysis = Json.obj []) :
    (V1.applyResponse cfg res s0).1.autismAnnotatedImageUrl = none ∧
    (V1.applyResponse cfg res s0).1.autismAnalysis = Json.obj [] := by
  obtain ⟨hA1, hA2⟩ := V1.ageSection_autism cfg res (V1.withBackendMessage res s0)
  unfold V1.applyResponse
  split
  · rename_i s2 e heq
    rw [heq] at hA1 hA2
    exact ⟨hA1.trans h1, hA2.trans h2⟩
  · rename_i s2 heq
    rw [heq] at hA1 hA2
    rw [V1.autismSection_adult s2 hst]
    exact ⟨rfl, rfl⟩

/-- C1: for every response whose status is `adult_invalid`, no autism
output is rendered — in the MUI variant the state after `handleAnalyze`
shows neither the autism image nor the autism table, and in the plain
variant `renderResults` emits no autism image, no autism table and no
final-decision box — even when `autism_prediction_data` is present in
the payload. -/
theorem C1_adult_invalid_suppresses_autism (cfg : Config) (net : FetchOutcome)
    (s : V1.State) (r : Json)
    (hres : Api.analyzeImage cfg s.selectedImage net = .ok r)
    (hst : statusEq r "adult_invalid" = true) :
    V1.showsAutismImage (V1.handleAnalyze cfg net s) = false ∧
    V1.showsAutismTable (V1.handleAnalyze cfg net s) = false ∧
    (V2.renderResults false (some r)).autismImage = none ∧
    (V2.renderResults false (some r)).autismTable = none ∧
    (V2.renderResults false (some r)).finalDecision = none := by
  have hv1 : (V1.handleAnalyze cfg net s).autismAnnotatedImageUrl = none ∧
      (V1.handleAnalyze cfg net s).autismAnalysis = Json.obj [] := by
    unfold V1.handleAnalyze
    cases hsel : s.selectedImage with
    | none =>
      rw [hsel] at hres
      simp [Api.analyzeImage, Api.validateFile] at hres
    | some f =>
      rw [hsel] at hres
      simp only [hres]
      obtain ⟨hadult1, hadult2⟩ := V1.applyResponse_adult cfg r
        (V1.resetStateExceptImage {s with isProcessing := true}) hst rfl rfl
      rw [hsel] at hadult1 hadult2
      split
      · rename_i st heq
        rw [heq] at hadult1 hadult2
        exact ⟨hadult1, hadult2⟩
      · rename_i st e heq
        rw [heq] at hadult1 hadult2
        exact ⟨hadult1, hadult2⟩
  have hT := statusEq_truthy hst
  have hc := statusEq_ne hst (by decide : "adult_invalid" ≠ "child_autism_screened")
  have hout : (V2.renderResults false (some r)).autismImage = none ∧
      (V2.renderResults false (some r)).autismTable = none ∧
      (V2.renderResults false (some r)).finalDecision = none := by
    cases hra : V2.renderAdult r with
    | error e =>
      have hrr : V2.renderResults false (some r) =
          {RenderOut.empty with notice := some "Error displaying results. Please try again."} := by
        simp [V2.renderResults, V2.renderInner, hT, hc, hst, hra]
      rw [hrr]
      exact ⟨rfl, rfl, rfl⟩
    | ok o =>
      have hrr : V2.renderResults false (some r) = o := by
        simp [V2.renderResults, V2.renderInner, hT, hc, hst, hra]
      rw [hrr]
      exact V2.renderAdult_ok hra
  refine ⟨?_, ?_, hout.1, hout.2.1, hout.2.2⟩
  · simp [V1.showsAutismImage, hv1.1]
  · simp [V1.showsAutismTable, hv1.2, Json.field]

/-- An `adult_invalid` response that does carry autism prediction data. -/
def adultRes : Json :=
  Json.obj [("status", Json.str "adult_invalid"),
            ("autism_prediction_data",
              Json.obj [("annotated_image_path", Json.str "/autism.png"),
                        ("results", Json.arr [Json.obj
                          [("region", Json.str "eyes"),
                           ("label", Json.str "typical"),
                           ("confidence", Json.num 82)]])]),
            ("age_check_summary",
              Json.obj [("adults_count", Json.num 2), ("kids_count", Json.num 0)])]

/-- C1 witness: the `adult_invalid` payload with autism data present
renders no autism output in either variant. -/
theorem C1_adult_invalid_suppresses_autism_witness :
    V1.showsAutismImage (V1.handleAnalyze specConfig (.resolves 0 200 "OK" adultRes)
      {V1.init with selectedImage := some wFile}) = false ∧
    V1.showsAutismTable (V1.handleAnalyze specConfig (.resolves 0 200 "OK" adultRes)
      {V1.init with selectedImage := some wFile}) = false ∧
    (V2.renderResults false (some adultRes)).autismTable = none := by
  have h := C1_adult_invalid_suppresses_autism specConfig
    (.resolves 0 200 "OK" adultRes) {V1.init with selectedImage := some wFile}
    adultRes rfl rfl
  exact ⟨h.1, h.2.1, h.2.2.2.1⟩
